import Mathlib

/-!
Verification development for the AstrophotoKit FITS access layer.

The repository's C shim consists of two wrapper files:
  Sources/CCFITSIO/cfitsio_wrapper.c       (per-axis normalization + fits_read_pix)
  Sources/CAstrophotoKit/cfitsio_wrapper.c (scalar fits_read_img, axis-buffer copy)
Pure passthrough wrappers delegate to the external CFITSIO engine; the
Swift-side layer (file-handle lifecycle, HDU navigation, header reads,
status translation) is part of the package but not among the C sources, so
those pieces are modelled from the spec and marked as such in their doc
comments.

Machine integers: the wrappers receive 64-bit `LONGLONG` values and compute
in C `long`, which is 64-bit on the LP64 targets this package builds for.
We model both as `Int` with explicit two's-complement reduction `wrap64`
wherever C arithmetic or a cast can overflow.
-/

/-- Two's-complement reduction of an integer into the 64-bit signed range,
modelling C `long`/`long long` overflow and out-of-range casts. -/
def wrap64 (x : Int) : Int :=
  (x + 9223372036854775808) % 18446744073709551616 - 9223372036854775808

/-! ## Embedding of `fits_read_img_wrapper` (Sources/CCFITSIO/cfitsio_wrapper.c, lines 38–63)

```c
long firstPixelLong[3]  = {1, 1, 1};
long numElementsLong[3] = {1, 1, 1};
int dimsToCopy = (naxis < 3) ? naxis : 3;
for (int i = 0; i < dimsToCopy; i++) {
    firstPixelLong[i]  = (long)firstPixel[i];
    numElementsLong[i] = (long)numElements[i];
}
long totalElements = 1;
for (int i = 0; i < dimsToCopy; i++) totalElements *= numElementsLong[i];
return fits_read_pix(fptr, dataType, firstPixelLong, totalElements,
                     nullValue, array, anyNull, status);
```

Arrays are modelled as `List Int`; a read `firstPixel[i]` is `List.getD i 0`
(the theorems only use indices the C code may legally read). The `(long)`
cast is `wrap64`, as is every `long` multiplication. -/

/-- Number of loop iterations: `int dimsToCopy = (naxis < 3) ? naxis : 3;`
with a `for (int i = 0; i < dimsToCopy; i++)` loop, so a non-positive
`naxis` yields zero iterations. -/
def copiedCount (naxis : Int) : Nat :=
  (if naxis < 3 then naxis else 3).toNat

/-- The `firstPixelLong[3]` array after the copy loop: entries below
`dimsToCopy` are the cast inputs, the rest keep the initializer `1`. -/
def firstPixelLong (naxis : Int) (firstPixel : List Int) : List Int :=
  (List.range 3).map fun i =>
    if i < copiedCount naxis then wrap64 (firstPixel.getD i 0) else 1

/-- The `numElementsLong[3]` array after the copy loop. -/
def numElementsLong (naxis : Int) (numElements : List Int) : List Int :=
  (List.range 3).map fun i =>
    if i < copiedCount naxis then wrap64 (numElements.getD i 0) else 1

/-- The `totalElements` accumulation loop, in wrapping `long` arithmetic. -/
def totalElements (naxis : Int) (numElements : List Int) : Int :=
  (List.range (copiedCount naxis)).foldl
    (fun acc i => wrap64 (acc * wrap64 (numElements.getD i 0))) 1

/-- The request the CCFITSIO wrapper hands to the engine primitive
`fits_read_pix`: datatype, per-axis first-pixel array, total element count.
The `nullValue`, `array`, `anyNull` and `status` pointers are passed through
unchanged and the wrapper has no failure path of its own: it always issues
exactly this request. -/
structure PixRequest where
  dataType : Int
  fpixel : List Int
  nelem : Int
deriving DecidableEq

/-- Embedding of `fits_read_img_wrapper` from Sources/CCFITSIO/cfitsio_wrapper.c. -/
def ccfitsio_read_img_request (dataType naxis : Int)
    (firstPixel numElements : List Int) : PixRequest :=
  { dataType := dataType
    fpixel := firstPixelLong naxis firstPixel
    nelem := totalElements naxis numElements }

/-- Mathematical (non-wrapping) product of the first `n` entries of a list,
the "product of elementCounts over the axes actually present". -/
def prodFirst (n : Nat) (l : List Int) : Int :=
  ((List.range n).map fun i => l.getD i 0).prod

/-! ## Embedding of the CAstrophotoKit wrappers (Sources/CAstrophotoKit/cfitsio_wrapper.c) -/

/-- Embedding of `fits_read_img_wrapper` from
Sources/CAstrophotoKit/cfitsio_wrapper.c, lines 42–44:

```c
return fits_read_img((fitsfile *)fptr, datatype, *fpixel, *nelements,
                     nulval, array, anynul, status);
```

This wrapper dereferences only the first entry of each caller-supplied array
and hands the engine primitive `fits_read_img` a scalar 1-based linear
first-element offset together with a scalar total element count; the other
pointers pass through unchanged. The result records
`(datatype, firstelem, nelem)` as requested from the engine. -/
def castro_read_img_request (datatype : Int) (fpixel nelements : List Int) :
    Int × Int × Int :=
  (datatype, fpixel.getD 0 0, nelements.getD 0 0)

/-- Sequential stores `buf[i] = f i` for `i = 0 .. n-1` into a C array
modelled as a list: a store past the end of the list is out of bounds
(undefined behavior), modelled as `none`. -/
def writeSlots : Nat → (Nat → Int) → List Int → Option (List Int)
  | 0, _, buf => some buf
  | n + 1, f, buf =>
    match writeSlots n f buf with
    | none => none
    | some b => if n < b.length then some (b.set n (f n)) else none

/-- Modelled from the spec (sections 4.5 and 6): the external engine
primitive `fits_get_img_param` (not among the repository's C sources) writes
one slot of the caller's axis-length buffer per image axis, capped at the
caller-declared `maxdim`, so it performs `min naxis maxdim` stores. -/
def engineAxisWrites (maxdim naxis : Nat) : Nat := min naxis maxdim

/-- Embedding of `fits_get_img_param_wrapper` from
Sources/CAstrophotoKit/cfitsio_wrapper.c, lines 32–40:

```c
long naxes_long[3];
int result = fits_get_img_param((fitsfile *)fptr, maxdim, bitpix, naxis,
                                naxes_long, status);
for (int i = 0; i < 3; i++) naxes[i] = (long long)naxes_long[i];
return result;
```

The caller's `maxdim` is forwarded to the engine unmodified while the
engine's store target is the fixed 3-slot local `naxes_long`; the copy loop
then writes exactly 3 entries to the caller's `naxes` output (`long` to
`long long` widening is exact on LP64). `j0 j1 j2` are the indeterminate
initial contents of the uninitialized local buffer; `lengths i` is the
image's length on axis `i` as reported by the engine. The result pairs the
`maxdim` handed to the engine with the caller's 3-entry output; an
out-of-bounds store by the engine is `none` (undefined behavior). -/
def fits_get_img_param_wrapper (maxdim naxis : Nat) (lengths : Nat → Int)
    (j0 j1 j2 : Int) : Option (Nat × List Int) :=
  match writeSlots (engineAxisWrites maxdim naxis) lengths [j0, j1, j2] with
  | none => none
  | some b => some (maxdim, b)

/-! ## Spec-modelled engine decode primitives -/

/-- Modelled from the spec (section 6): the engine's read-pixel-run
primitive (not among the repository's C sources) decodes exactly `count`
elements starting at the 1-based linear offset `first`, and reports whether
any decoded value equals the caller-supplied null sentinel; when no sentinel
is supplied, no value is treated as null. `data i` is the decoded value of
0-based linear pixel `i`. -/
def readPixelRun (first : Int) (count : Nat) (data : Nat → Int)
    (nullValue : Option Int) : List Int × Bool :=
  let buf := (List.range count).map fun i => data ((first - 1).toNat + i)
  match nullValue with
  | none => (buf, false)
  | some s => (buf, buf.any fun x => x == s)

/-- Modelled from the spec (sections 4.6 and 6): `fits_read_pix` (part of
the external engine) converts per-axis 1-based first-pixel coordinates into
the flattened 1-based starting offset of the linear run, each axis
contributing its zero-based coordinate times the product of the lengths of
the earlier axes. `offAux` accumulates that stride product. -/
def offAux : List Int → List Int → Int → Int
  | [], _, _ => 0
  | f :: fs, [], s => (f - 1) * s + offAux fs [] s
  | f :: fs, l :: ls, s => (f - 1) * s + offAux fs ls (s * l)

/-- Flattened 1-based starting offset of a per-axis coordinate vector. -/
def linearOffset (fpixel lengths : List Int) : Int := 1 + offAux fpixel lengths 1

/-- Full-image 2-axis read through the CCFITSIO wrapper composed with the
engine's pixel-run decoder: the default `firstPixel`/`elementCounts` of
`readPixels` (first pixel all ones, per-axis counts the full axis lengths),
with no null sentinel. -/
def readPixelsFull2 (W H : Nat) (data : Nat → Int) : List Int × Bool :=
  readPixelRun
    (linearOffset (ccfitsio_read_img_request 0 2 [1, 1] [(W : Int), (H : Int)]).fpixel
      [(W : Int), (H : Int)])
    (ccfitsio_read_img_request 0 2 [1, 1] [(W : Int), (H : Int)]).nelem.toNat
    data none

/-! ## Spec-modelled Swift-side layer

The package's Swift layer (file-handle lifecycle, HDU navigation, header
reads, status translation) sits above the C wrappers but is not among the
given C sources; the definitions below are modelled from the spec. -/

/-- Modelled from the spec (section 7): the layer's error taxonomy. -/
inductive ErrorKind
  | OpenFailed
  | HandleClosed
  | InvalidHDUIndex
  | KeyNotFound
  | NotAnImageHDU
  | UnsupportedDimensionality
  | ReadFailed
  | FormatError
deriving DecidableEq, Inhabited

/-- Modelled from the spec (section 4.1): a structured error, an error kind
plus the engine's diagnostic text (a character list, so its length is
explicit). -/
structure ErrorDetail where
  kind : ErrorKind
  text : List Char
deriving DecidableEq

/-- Modelled from the spec (section 4.1): the Status Translator, a total
pure function of the status code. `known` is the layer's table from
recognized engine codes to taxonomy kinds; a code outside the table maps to
the generic `FormatError` kind. The diagnostic text is whatever the
engine's status-to-text facility (`fits_get_errstatus`, reached through the
passthrough wrapper `fits_get_errstatus_wrapper`) supplies for the code,
possibly empty. -/
def translateStatus (known : Int → Option ErrorKind) (engineText : Int → List Char)
    (code : Int) : ErrorDetail :=
  { kind := (known code).getD ErrorKind.FormatError
    text := engineText code }

/-- Modelled from the spec (section 3): the layer's FileHandle entity. The
opaque engine resource is summarized by `releaseCount`, the number of times
the underlying resource has been released; the open flag and the 1-based
current-HDU cursor are explicit fields. -/
structure FileHandle where
  isOpen : Bool
  currentHDU : Nat
  releaseCount : Nat
deriving DecidableEq

/-- Modelled from the spec (section 4.2): `open` yields an open handle with
the cursor at HDU 1 (the primary HDU) and the resource not yet released. -/
def openHandle : FileHandle :=
  { isOpen := true, currentHDU := 1, releaseCount := 0 }

/-- Modelled from the spec (section 4.2): `close` releases the resource on
an open handle and reports success; on an already-closed handle it is a
no-op that still reports success. -/
def close (h : FileHandle) : Bool × FileHandle :=
  if h.isOpen then
    (true, { h with isOpen := false, releaseCount := h.releaseCount + 1 })
  else
    (true, h)

/-- Iterated `close` (the state after invoking `close` n times). -/
def closeTimes : Nat → FileHandle → FileHandle
  | 0, h => h
  | n + 1, h => (close (closeTimes n h)).2

/-- Modelled from the spec (section 3): one keyword record of an HDU
header. -/
structure HeaderKey where
  name : String
  value : String
  comment : String
deriving DecidableEq, Inhabited

/-- Modelled from the spec (section 3): image geometry of an HDU. -/
structure ImageParameters where
  bitpix : Int
  naxis : Nat
  axisLengths : List Int
deriving DecidableEq, Inhabited

/-- Modelled from the spec (sections 3 and 6): the read-only file contents
the layer navigates — the HDU count and, for each 1-based HDU index, its
header (the on-disk-ordered keyword records) and its image parameters. -/
structure FitsFile where
  hduCount : Nat
  headers : Nat → List HeaderKey
  imgParams : Nat → ImageParameters

/-- Modelled from the spec (section 4.3): `seek` moves the cursor to the
1-based index when it lies in the range 1 to hduCount and otherwise fails
with `InvalidHDUIndex`, leaving the handle unchanged. -/
def seek (f : FitsFile) (h : FileHandle) (index : Nat) :
    Except ErrorKind Unit × FileHandle :=
  if 1 ≤ index ∧ index ≤ f.hduCount then
    (Except.ok (), { h with currentHDU := index })
  else
    (Except.error ErrorKind.InvalidHDUIndex, h)

/-- Modelled from the spec (section 4.4): `headerKeyCount` reports the
number of existing keywords of the HDU under the cursor. -/
def headerKeyCount (f : FitsFile) (h : FileHandle) : Nat :=
  (f.headers h.currentHDU).length

/-- Modelled from the spec (section 4.5): `imageParameters` reads the
geometry of the HDU under the cursor. -/
def imageParameters (f : FitsFile) (h : FileHandle) : ImageParameters :=
  f.imgParams h.currentHDU

/-- Modelled from the spec (section 4.4): `readKey` fetches the keyword at
the 1-based ordinal of the current HDU's header, failing with `KeyNotFound`
outside the existing range; the handle is returned alongside so that the
absence of state change is observable. -/
def readKey (f : FitsFile) (h : FileHandle) (ordinal : Nat) :
    Except ErrorKind HeaderKey × FileHandle :=
  if 1 ≤ ordinal ∧ ordinal ≤ (f.headers h.currentHDU).length then
    (Except.ok ((f.headers h.currentHDU).getD (ordinal - 1) default), h)
  else
    (Except.error ErrorKind.KeyNotFound, h)

/-- Concrete two-HDU file used by the witnesses: HDU 1 holds one keyword,
HDU 2 is a 16-bit 4-by-4 image. -/
def sampleFile : FitsFile :=
  { hduCount := 2
    headers := fun i =>
      if i = 1 then [{ name := "SIMPLE", value := "T", comment := "conforms" }] else []
    imgParams := fun _ => { bitpix := 16, naxis := 2, axisLengths := [4, 4] } }

/-- Axis lengths used by the witnesses. -/
def sampleLengths (i : Nat) : Int := (i : Int) + 10

/-- Decoded pixel values used by the witnesses: the 4-by-4 image whose
0-based linear pixel 5 holds the 16-bit null sentinel. -/
def samplePixels (i : Nat) : Int := if i = 5 then -32768 else 7

/-- Constant pixel data used by the C1 witness. -/
def sampleData (i : Nat) : Int := 7

/-- Known-code table used by the C7 witness. -/
def sampleKnown (c : Int) : Option ErrorKind :=
  if c = 104 then some ErrorKind.OpenFailed else none

/-- Engine diagnostic-text facility used by the C7 witness. -/
def sampleEngineText (c : Int) : List Char := []

/-! ## Theorems -/

/-- Values already inside the signed 64-bit range are fixed by `wrap64`. -/
theorem wrap64_eq_self (x : Int) (h1 : -9223372036854775808 ≤ x)
    (h2 : x < 9223372036854775808) : wrap64 x = x := by
  unfold wrap64
  omega

/-- Unfolding of `totalElements` at zero axes. -/
theorem totalElements_zero (ne : List Int) : totalElements 0 ne = 1 := rfl

/-- Unfolding of `totalElements` at one axis. -/
theorem totalElements_one (ne : List Int) :
    totalElements 1 ne = wrap64 (1 * wrap64 (ne.getD 0 0)) := rfl

/-- Unfolding of `totalElements` at two axes. -/
theorem totalElements_two (ne : List Int) :
    totalElements 2 ne =
      wrap64 (wrap64 (1 * wrap64 (ne.getD 0 0)) * wrap64 (ne.getD 1 0)) := rfl

/-- Unfolding of `totalElements` at three axes. -/
theorem totalElements_three (ne : List Int) :
    totalElements 3 ne =
      wrap64 (wrap64 (wrap64 (1 * wrap64 (ne.getD 0 0)) * wrap64 (ne.getD 1 0)) *
        wrap64 (ne.getD 2 0)) := rfl

/-- Unfolding of `prodFirst` at one entry. -/
theorem prodFirst_one (l : List Int) : prodFirst 1 l = l.getD 0 0 := by
  simp [prodFirst, List.range_succ]

/-- Unfolding of `prodFirst` at two entries. -/
theorem prodFirst_two (l : List Int) :
    prodFirst 2 l = l.getD 0 0 * l.getD 1 0 := by
  simp [prodFirst, List.range_succ]

/-- Unfolding of `prodFirst` at three entries. -/
theorem prodFirst_three (l : List Int) :
    prodFirst 3 l = l.getD 0 0 * l.getD 1 0 * l.getD 2 0 := by
  simp [prodFirst, List.range_succ, mul_assoc]

/-- For at most `MAX_AXES = 3` axes with positive per-axis counts whose true
product fits in a signed 64-bit `long`, the wrapped accumulation computes
exactly the mathematical product. -/
theorem totalElements_eq_prodFirst (naxis : Nat) (hn : naxis ≤ 3)
    (ne : List Int) (hpos : ∀ i, i < naxis → 1 ≤ ne.getD i 0)
    (hfit : prodFirst naxis ne < 9223372036854775808) :
    totalElements (naxis : Int) ne = prodFirst naxis ne := by
  interval_cases naxis
  · exact totalElements_zero ne
  · have h0 := hpos 0 (by omega)
    push_cast
    rw [prodFirst_one] at hfit ⊢
    rw [totalElements_one,
        wrap64_eq_self (ne.getD 0 0) (by omega) (by omega),
        one_mul,
        wrap64_eq_self (ne.getD 0 0) (by omega) (by omega)]
  · have h0 := hpos 0 (by omega)
    have h1 := hpos 1 (by omega)
    push_cast
    rw [prodFirst_two] at hfit ⊢
    have l0 : ne.getD 0 0 ≤ ne.getD 0 0 * ne.getD 1 0 :=
      le_mul_of_one_le_right (by omega) h1
    have l1 : ne.getD 1 0 ≤ ne.getD 0 0 * ne.getD 1 0 :=
      le_mul_of_one_le_left (by omega) h0
    rw [totalElements_two,
        wrap64_eq_self (ne.getD 0 0) (by omega) (by omega),
        wrap64_eq_self (ne.getD 1 0) (by omega) (by omega),
        one_mul,
        wrap64_eq_self (ne.getD 0 0) (by omega) (by omega),
        wrap64_eq_self _ (by nlinarith) hfit]
  · have h0 := hpos 0 (by omega)
    have h1 := hpos 1 (by omega)
    have h2 := hpos 2 (by omega)
    push_cast
    rw [prodFirst_three] at hfit ⊢
    have l01 : ne.getD 0 0 * ne.getD 1 0 ≤ ne.getD 0 0 * ne.getD 1 0 * ne.getD 2 0 :=
      le_mul_of_one_le_right (by nlinarith) h2
    have l0 : ne.getD 0 0 ≤ ne.getD 0 0 * ne.getD 1 0 :=
      le_mul_of_one_le_right (by omega) h1
    have l1 : ne.getD 1 0 ≤ ne.getD 0 0 * ne.getD 1 0 :=
      le_mul_of_one_le_left (by omega) h0
    have l2 : ne.getD 2 0 ≤ ne.getD 0 0 * ne.getD 1 0 * ne.getD 2 0 :=
      le_mul_of_one_le_left (by nlinarith) (by nlinarith)
    rw [totalElements_three,
        wrap64_eq_self (ne.getD 0 0) (by omega) (by omega),
        wrap64_eq_self (ne.getD 1 0) (by omega) (by omega),
        wrap64_eq_self (ne.getD 2 0) (by omega) (by omega),
        one_mul,
        wrap64_eq_self (ne.getD 0 0) (by omega) (by omega),
        wrap64_eq_self (ne.getD 0 0 * ne.getD 1 0) (by nlinarith) (by omega),
        wrap64_eq_self _ (by nlinarith) hfit]

/-- Zero stores leave the 3-slot buffer untouched. -/
theorem writeSlots_buf3_zero (f : Nat → Int) (a b c : Int) :
    writeSlots 0 f [a, b, c] = some [a, b, c] := rfl

/-- One store fills the first slot. -/
theorem writeSlots_buf3_one (f : Nat → Int) (a b c : Int) :
    writeSlots 1 f [a, b, c] = some [f 0, b, c] := rfl

/-- Two stores fill the first two slots. -/
theorem writeSlots_buf3_two (f : Nat → Int) (a b c : Int) :
    writeSlots 2 f [a, b, c] = some [f 0, f 1, c] := rfl

/-- Three stores fill the whole 3-slot buffer. -/
theorem writeSlots_buf3_three (f : Nat → Int) (a b c : Int) :
    writeSlots 3 f [a, b, c] = some [f 0, f 1, f 2] := rfl

/-- More than three stores into the 3-slot buffer run out of bounds. -/
theorem writeSlots_buf3_oob (k : Nat) (hk : 3 < k) (f : Nat → Int)
    (a b c : Int) : writeSlots k f [a, b, c] = none := by
  induction k with
  | zero => omega
  | succ n ih =>
    by_cases h : 3 < n
    · simp [writeSlots, ih h]
    · have hn : n = 3 := by omega
      subst hn
      simp [writeSlots, writeSlots_buf3_three]

/-- All-ones coordinates contribute nothing to the offset. -/
theorem offAux_ones (n : Nat) : ∀ (ls : List Int) (s : Int),
    offAux (List.replicate n 1) ls s = 0 := by
  induction n with
  | zero => intro ls s; rfl
  | succ m ih =>
    intro ls s
    cases ls with
    | nil => simp [List.replicate_succ, offAux, ih]
    | cons l ls2 => simp [List.replicate_succ, offAux, ih]

/-- Mapping over `List.range 3` enumerates the three images. -/
theorem range3_map (f : Nat → Int) : (List.range 3).map f = [f 0, f 1, f 2] := rfl

/-- For a populated axis count between 1 and `MAX_AXES`, the wrapper's
`firstPixelLong` array on all-ones input is all ones. -/
theorem firstPixelLong_ones (naxis : Nat) (h1 : 1 ≤ naxis) (h3 : naxis ≤ 3) :
    firstPixelLong (naxis : Int) (List.replicate naxis 1) = [1, 1, 1] := by
  interval_cases naxis <;> rfl

/-- Entries of `firstPixelLong` past the populated range keep the
initializer `1`. -/
theorem firstPixelLong_default (naxis : Int) (fp : List Int) (i : Nat)
    (hi : i < 3) (hcc : copiedCount naxis ≤ i) :
    (firstPixelLong naxis fp).getD i 0 = 1 := by
  unfold firstPixelLong
  rw [range3_map]
  interval_cases i <;> simp <;> omega

/-- Value of the loop bound for a populated axis count at most 3. -/
theorem copiedCount_coe (naxis : Nat) (h : naxis ≤ 3) :
    copiedCount (naxis : Int) = naxis := by
  unfold copiedCount
  split <;> omega

/-- Value of the loop bound for an axis count of at least 3. -/
theorem copiedCount_of_ge (naxis : Int) (h : 3 ≤ naxis) :
    copiedCount naxis = 3 := by
  unfold copiedCount
  split <;> omega

/-- Claim C1: for every pixel read whose axis count lies between 0 and
MAX_AXES = 3 and whose per-axis counts are positive with a total that fits
the decoder's 64-bit count type, the flattened total element count passed
to the decoder equals the product of the elementCounts over the axes
actually present, axes beyond the populated range default to starting
coordinate 1 (and, the loop bound being the populated count, contribute the
factor 1); in particular a 2-axis full-image read of lengths [W, H] with
the default firstPixel/elementCounts returns a buffer of exactly W * H
elements. -/
theorem C1_flattened_count_is_product (dt : Int) (naxis : Nat) (hn : naxis ≤ 3)
    (fp ne : List Int) (hpos : ∀ i, i < naxis → 1 ≤ ne.getD i 0)
    (hfit : prodFirst naxis ne < 9223372036854775808)
    (W H : Nat) (hW : 1 ≤ W) (hH : 1 ≤ H)
    (hWH : (W : Int) * (H : Int) < 9223372036854775808) (data : Nat → Int) :
    (ccfitsio_read_img_request dt (naxis : Int) fp ne).nelem = prodFirst naxis ne ∧
    (∀ i, naxis ≤ i → i < 3 →
      (ccfitsio_read_img_request dt (naxis : Int) fp ne).fpixel.getD i 0 = 1) ∧
    (readPixelsFull2 W H data).1.length = W * H := by
  refine ⟨totalElements_eq_prodFirst naxis hn ne hpos hfit, ?_, ?_⟩
  · intro i hni hi3
    exact firstPixelLong_default (naxis : Int) fp i hi3
      (by rw [copiedCount_coe naxis hn]; exact hni)
  · have hne : totalElements ((2 : Nat) : Int) [(W : Int), (H : Int)] =
        prodFirst 2 [(W : Int), (H : Int)] := by
      refine totalElements_eq_prodFirst 2 (by omega) _ ?_ ?_
      · intro i hi
        interval_cases i <;> simp <;> omega
      · rw [prodFirst_two]
        simpa using hWH
    have hp : prodFirst 2 [(W : Int), (H : Int)] = (W : Int) * (H : Int) := by
      rw [prodFirst_two]; simp
    have hne2 : totalElements (2 : Int) [(W : Int), (H : Int)] =
        prodFirst 2 [(W : Int), (H : Int)] := hne
    unfold readPixelsFull2 readPixelRun
    simp only [ccfitsio_read_img_request]
    rw [hne2, hp]
    simp only [List.length_map, List.length_range]
    rw [← Nat.cast_mul, Int.toNat_natCast]

/-- Claim C2, failing input: the pixel-read layer performs no fit
validation before narrowing. At naxis = 2 with per-axis counts
[2^32, 2^32] the true flattened total is 2^64, which does not fit the
64-bit `long` handed to the decoder primitive, yet the wrapper silently
wraps the computed total to 0 and still issues the engine request with
count 0 — it has no failure path and never produces ReadFailed. -/
theorem C2_no_overflow_validation :
    totalElements 2 [4294967296, 4294967296] = 0 ∧
    prodFirst 2 [4294967296, 4294967296] = 18446744073709551616 ∧
    ccfitsio_read_img_request 42 2 [1, 1] [4294967296, 4294967296] =
      { dataType := 42, fpixel := [1, 1, 1], nelem := 0 } := by
  refine ⟨by decide, by decide, by decide⟩

/-- Claim C3: when the image or the read request reports more than
MAX_AXES = 3 axes, both wrappers truncate deterministically to the first 3
axes instead of failing: the CCFITSIO pixel-read request built for any
naxis above 3 is identical to the one built for exactly 3 axes (trailing
axes contribute count 1, coordinate 1), and the CAstrophotoKit
image-parameter wrapper called with its fixed buffer capacity 3 on an image
of more than 3 axes returns exactly the first 3 axis lengths (the same
value as for a 3-axis image, hence the same on every call with the same
inputs), never an `UnsupportedDimensionality`-style failure. -/
theorem C3_truncates_deterministically (dt naxis : Int) (fp ne : List Int)
    (m : Nat) (lengths : Nat → Int) (j0 j1 j2 : Int)
    (hna : 3 < naxis) (hm : 3 < m) :
    ccfitsio_read_img_request dt naxis fp ne =
      ccfitsio_read_img_request dt 3 fp ne ∧
    fits_get_img_param_wrapper 3 m lengths j0 j1 j2 =
      fits_get_img_param_wrapper 3 3 lengths j0 j1 j2 ∧
    fits_get_img_param_wrapper 3 m lengths j0 j1 j2 =
      some (3, [lengths 0, lengths 1, lengths 2]) := by
  have hc : copiedCount naxis = copiedCount 3 := by
    rw [copiedCount_of_ge naxis (by omega), copiedCount_of_ge 3 (by omega)]
  have he : engineAxisWrites 3 m = 3 := by
    unfold engineAxisWrites; omega
  refine ⟨?_, ?_, ?_⟩
  · unfold ccfitsio_read_img_request firstPixelLong totalElements
    rw [hc]
  · unfold fits_get_img_param_wrapper
    rw [he]
    rfl
  · unfold fits_get_img_param_wrapper
    rw [he, writeSlots_buf3_three]

/-- Claim C4: close is idempotent. On any open handle (with the resource
not yet released), the first close succeeds and releases the resource
exactly once, and every later invocation of close is a no-op that still
returns success, leaving the state — including the release count — exactly
as after the first close; an open immediately followed by close also
succeeds. -/
theorem C4_close_idempotent (h : FileHandle) (hopen : h.isOpen = true)
    (hrel : h.releaseCount = 0) :
    (close openHandle).1 = true ∧
    (close h).1 = true ∧
    (close h).2.releaseCount = 1 ∧
    (∀ n : Nat, 1 ≤ n → closeTimes n h = (close h).2) ∧
    (∀ n : Nat, 1 ≤ n → (close (closeTimes n h)).1 = true) := by
  have hcl : (close h).2.isOpen = false := by
    simp [close, hopen]
  have hfix : close (close h).2 = (true, (close h).2) := by
    rw [close, if_neg (by simp [hcl])]
  have hiter : ∀ n : Nat, 1 ≤ n → closeTimes n h = (close h).2 := by
    intro n hn
    induction n with
    | zero => omega
    | succ m ih =>
      cases Nat.eq_or_lt_of_le hn with
      | inl h1 =>
        have : m = 0 := by omega
        subst this
        rfl
      | inr h2 =>
        have hm : 1 ≤ m := by omega
        show (close (closeTimes m h)).2 = (close h).2
        rw [ih hm, hfix]
  refine ⟨by simp [close, openHandle], by simp [close, hopen],
    by simp [close, hopen, hrel], hiter, ?_⟩
  intro n hn
  rw [hiter n hn, hfix]

/-- Claim C5: when no null sentinel is supplied to the pixel-read path, the
decoder's anyNull flag is always false; when a sentinel is supplied and at
least one decoded pixel equals it, the call still returns the full element
count and the flag is true (and the count is also full in the no-sentinel
case). -/
theorem C5_null_sentinel_flag (first : Int) (count : Nat) (data : Nat → Int)
    (s : Int) (hhit : ∃ i, i < count ∧ data ((first - 1).toNat + i) = s) :
    (readPixelRun first count data none).2 = false ∧
    (readPixelRun first count data none).1.length = count ∧
    (readPixelRun first count data (some s)).2 = true ∧
    (readPixelRun first count data (some s)).1.length = count := by
  obtain ⟨i, hi, hd⟩ := hhit
  refine ⟨rfl, by simp [readPixelRun], ?_, by simp [readPixelRun]⟩
  simp only [readPixelRun, List.any_eq_true, List.mem_map, List.mem_range,
    beq_iff_eq]
  exact ⟨data ((first - 1).toNat + i), ⟨i, hi, rfl⟩, hd⟩

/-- Claim C6: seeking to an index outside the range 1 to hduCount fails
with InvalidHDUIndex and leaves the handle — in particular its current-HDU
cursor — unchanged; seeking inside the range succeeds, moves the cursor to
that index, and subsequent header and image-parameter operations act on
that HDU. -/
theorem C6_seek_range_and_atomicity (f : FitsFile) (h : FileHandle)
    (index : Nat) :
    (¬(1 ≤ index ∧ index ≤ f.hduCount) →
      seek f h index = (Except.error ErrorKind.InvalidHDUIndex, h)) ∧
    (1 ≤ index → index ≤ f.hduCount →
      (seek f h index).1 = Except.ok () ∧
      (seek f h index).2.currentHDU = index ∧
      headerKeyCount f (seek f h index).2 = (f.headers index).length ∧
      imageParameters f (seek f h index).2 = f.imgParams index) := by
  constructor
  · intro hc
    rw [seek, if_neg hc]
  · intro h1 h2
    rw [seek, if_pos ⟨h1, h2⟩]
    exact ⟨rfl, rfl, rfl, rfl⟩

/-- Claim C7: the status translator is a total pure function of the status
code (a plain Lean function, defined for every code, with no exceptional
path): for every non-zero code it returns a structured error carrying
exactly the engine's diagnostic text — bounded whenever the engine facility
is bounded — and every code outside the layer's recognized table, whatever
the engine text (possibly empty), maps to the generic FormatError kind. -/
theorem C7_translator_total (known : Int → Option ErrorKind)
    (engineText : Int → List Char) (hb : ∀ c, (engineText c).length ≤ 30)
    (code : Int) (hnz : code ≠ 0) :
    (translateStatus known engineText code).text = engineText code ∧
    (translateStatus known engineText code).text.length ≤ 30 ∧
    (known code = none →
      (translateStatus known engineText code).kind = ErrorKind.FormatError) := by
  refine ⟨rfl, hb code, ?_⟩
  intro hunk
  simp [translateStatus, hunk]

/-- Claim C8: readKey is an idempotent read. For a fixed HDU state and an
ordinal inside the existing range, the call returns the keyword record at
that ordinal without changing the handle, and an immediately repeated call
with the same ordinal returns the identical (name, value, comment) result
and state. -/
theorem C8_readKey_idempotent (f : FitsFile) (h : FileHandle) (ordinal : Nat)
    (h1 : 1 ≤ ordinal) (h2 : ordinal ≤ (f.headers h.currentHDU).length) :
    (readKey f h ordinal).2 = h ∧
    (readKey f h ordinal).1 =
      Except.ok ((f.headers h.currentHDU).getD (ordinal - 1) default) ∧
    readKey f (readKey f h ordinal).2 ordinal = readKey f h ordinal := by
  have hc : 1 ≤ ordinal ∧ ordinal ≤ (f.headers h.currentHDU).length := ⟨h1, h2⟩
  have he : readKey f h ordinal =
      (Except.ok ((f.headers h.currentHDU).getD (ordinal - 1) default), h) := by
    rw [readKey, if_pos hc]
  refine ⟨by rw [he], by rw [he], ?_⟩
  rw [he]
  exact he

/-- Pointwise value of the image-parameter wrapper whenever the engine's
store count stays within the 3-slot local buffer. -/
theorem img_param_eval (maxdim naxis : Nat) (lengths : Nat → Int)
    (j0 j1 j2 : Int) (hw : engineAxisWrites maxdim naxis ≤ 3) :
    fits_get_img_param_wrapper maxdim naxis lengths j0 j1 j2 =
      some (maxdim, (List.range 3).map fun i =>
        if i < engineAxisWrites maxdim naxis then lengths i
        else [j0, j1, j2].getD i 0) := by
  unfold fits_get_img_param_wrapper
  obtain ⟨k, hk⟩ : ∃ k, engineAxisWrites maxdim naxis = k := ⟨_, rfl⟩
  rw [hk] at hw ⊢
  interval_cases k
  · rw [writeSlots_buf3_zero]
    simp [range3_map]
  · rw [writeSlots_buf3_one]
    simp [range3_map]
  · rw [writeSlots_buf3_two]
    simp [range3_map]
  · rw [writeSlots_buf3_three]
    simp [range3_map]

/-- Claim C9: the CAstrophotoKit image-parameter wrapper stores the
engine's axis lengths in a fixed 3-slot local buffer while forwarding the
caller's maxdim unmodified to the engine, and unconditionally copies
exactly 3 entries to the caller's output; under the precondition
maxdim ≤ 3 every call is well-defined, and then output slots at and beyond
the engine's store count — in particular the trailing slots for an image of
fewer than 3 axes — carry the never-written local storage `j0 j1 j2`;
whenever maxdim exceeds 3, an image with more than 3 axes drives the
engine's stores past the local buffer (undefined behavior, `none`). -/
theorem C9_img_param_fixed_buffer (maxdim naxis : Nat) (lengths : Nat → Int)
    (j0 j1 j2 : Int) (hm : maxdim ≤ 3) :
    fits_get_img_param_wrapper maxdim naxis lengths j0 j1 j2 =
      some (maxdim, (List.range 3).map fun i =>
        if i < engineAxisWrites maxdim naxis then lengths i
        else [j0, j1, j2].getD i 0) ∧
    ((List.range 3).map fun i =>
        if i < engineAxisWrites maxdim naxis then lengths i
        else [j0, j1, j2].getD i 0).length = 3 ∧
    (∀ m n : Nat, 3 < m → 3 < n →
      fits_get_img_param_wrapper m n lengths j0 j1 j2 = none) := by
  refine ⟨img_param_eval maxdim naxis lengths j0 j1 j2
    (by unfold engineAxisWrites; omega), by simp, ?_⟩
  intro m n hm3 hn3
  unfold fits_get_img_param_wrapper
  rw [writeSlots_buf3_oob (engineAxisWrites m n)
    (by unfold engineAxisWrites; omega) lengths j0 j1 j2]

/-- Claim C10: the two pixel-read wrappers are equivalent on contiguous
full-image reads. For an image of 1 to 3 axes with positive lengths whose
product fits the count type, the CAstrophotoKit wrapper — handed the
scalar linear offset 1 and the total count — requests exactly start 1 and
the full product from the engine, and the CCFITSIO wrapper — handed
all-ones per-axis coordinates and the full per-axis lengths — requests the
same: its coordinate array flattens to linear offset 1 and its computed
total equals the same product. -/
theorem C10_contiguous_full_read_equiv (dt : Int) (naxis : Nat) (L : List Int)
    (h1 : 1 ≤ naxis) (h3 : naxis ≤ 3)
    (hpos : ∀ i, i < naxis → 1 ≤ L.getD i 0)
    (hfit : prodFirst naxis L < 9223372036854775808) :
    castro_read_img_request dt [1] [prodFirst naxis L] =
      (dt, 1, prodFirst naxis L) ∧
    linearOffset
      (ccfitsio_read_img_request dt (naxis : Int) (List.replicate naxis 1) L).fpixel
      L = 1 ∧
    (ccfitsio_read_img_request dt (naxis : Int) (List.replicate naxis 1) L).nelem =
      prodFirst naxis L := by
  refine ⟨rfl, ?_, totalElements_eq_prodFirst naxis h3 L hpos hfit⟩
  show linearOffset (firstPixelLong (naxis : Int) (List.replicate naxis 1)) L = 1
  rw [firstPixelLong_ones naxis h1 h3]
  show 1 + offAux (List.replicate 3 1) L 1 = 1
  rw [offAux_ones]
  norm_num

/-- Witness for C1 at a 2-axis 4-by-4 read. -/
theorem C1_flattened_count_is_product_witness :
    (ccfitsio_read_img_request 42 ((2 : Nat) : Int) [1, 1] [4, 4]).nelem =
      prodFirst 2 [4, 4] ∧
    (ccfitsio_read_img_request 42 ((2 : Nat) : Int) [1, 1] [4, 4]).fpixel.getD 2 0 = 1 ∧
    (readPixelsFull2 4 4 sampleData).1.length = 4 * 4 := by
  have t := C1_flattened_count_is_product 42 2 (by decide) [1, 1] [4, 4]
    (by decide) (by decide) 4 4 (by decide) (by decide) (by decide) sampleData
  exact ⟨t.1, t.2.1 2 (by decide) (by decide), t.2.2⟩

/-- Witness for C3 at a 4-axis request against the 3-axis ceiling. -/
theorem C3_truncates_deterministically_witness :
    ccfitsio_read_img_request 42 4 [1, 2, 3, 4] [5, 6, 7, 8] =
      ccfitsio_read_img_request 42 3 [1, 2, 3, 4] [5, 6, 7, 8] ∧
    fits_get_img_param_wrapper 3 4 sampleLengths 70 80 90 =
      fits_get_img_param_wrapper 3 3 sampleLengths 70 80 90 ∧
    fits_get_img_param_wrapper 3 4 sampleLengths 70 80 90 =
      some (3, [sampleLengths 0, sampleLengths 1, sampleLengths 2]) :=
  C3_truncates_deterministically 42 4 [1, 2, 3, 4] [5, 6, 7, 8] 4
    sampleLengths 70 80 90 (by decide) (by decide)

/-- Witness for C4 on a freshly opened handle. -/
theorem C4_close_idempotent_witness :
    (close openHandle).1 = true ∧
    (close openHandle).1 = true ∧
    (close openHandle).2.releaseCount = 1 ∧
    closeTimes 2 openHandle = (close openHandle).2 ∧
    (close (closeTimes 2 openHandle)).1 = true := by
  have t := C4_close_idempotent openHandle rfl rfl
  exact ⟨t.1, t.2.1, t.2.2.1, t.2.2.2.1 2 (by decide), t.2.2.2.2 2 (by decide)⟩

/-- Witness for C5 on the 4-by-4 16-bit scenario with sentinel -32768. -/
theorem C5_null_sentinel_flag_witness :
    (readPixelRun 1 16 samplePixels none).2 = false ∧
    (readPixelRun 1 16 samplePixels none).1.length = 16 ∧
    (readPixelRun 1 16 samplePixels (some (-32768))).2 = true ∧
    (readPixelRun 1 16 samplePixels (some (-32768))).1.length = 16 :=
  C5_null_sentinel_flag 1 16 samplePixels (-32768) ⟨5, by decide, by decide⟩

/-- Witness for C6 on the sample file: index 3 is out of range for 2 HDUs,
index 2 is in range. -/
theorem C6_seek_range_and_atomicity_witness :
    seek sampleFile openHandle 3 =
      (Except.error ErrorKind.InvalidHDUIndex, openHandle) ∧
    (seek sampleFile openHandle 2).1 = Except.ok () ∧
    (seek sampleFile openHandle 2).2.currentHDU = 2 ∧
    headerKeyCount sampleFile (seek sampleFile openHandle 2).2 =
      (sampleFile.headers 2).length ∧
    imageParameters sampleFile (seek sampleFile openHandle 2).2 =
      sampleFile.imgParams 2 :=
  ⟨(C6_seek_range_and_atomicity sampleFile openHandle 3).1 (by decide),
   (C6_seek_range_and_atomicity sampleFile openHandle 2).2 (by decide) (by decide)⟩

/-- Witness for C7 at the unrecognized code 999. -/
theorem C7_translator_total_witness :
    (translateStatus sampleKnown sampleEngineText 999).text =
      sampleEngineText 999 ∧
    (translateStatus sampleKnown sampleEngineText 999).text.length ≤ 30 ∧
    (sampleKnown 999 = none →
      (translateStatus sampleKnown sampleEngineText 999).kind =
        ErrorKind.FormatError) :=
  C7_translator_total sampleKnown sampleEngineText
    (by intro c; simp [sampleEngineText]) 999 (by decide)

/-- Witness for C8 at ordinal 1 of the sample file's primary header. -/
theorem C8_readKey_idempotent_witness :
    (readKey sampleFile openHandle 1).2 = openHandle ∧
    (readKey sampleFile openHandle 1).1 =
      Except.ok ((sampleFile.headers openHandle.currentHDU).getD (1 - 1) default) ∧
    readKey sampleFile (readKey sampleFile openHandle 1).2 1 =
      readKey sampleFile openHandle 1 :=
  C8_readKey_idempotent sampleFile openHandle 1 (by decide) (by decide)

/-- Witness for C9 at buffer capacity 3 with a 2-axis image, plus the
out-of-bounds instance at maxdim = naxis = 4. -/
theorem C9_img_param_fixed_buffer_witness :
    fits_get_img_param_wrapper 3 2 sampleLengths 70 80 90 =
      some (3, (List.range 3).map fun i =>
        if i < engineAxisWrites 3 2 then sampleLengths i
        else [(70 : Int), 80, 90].getD i 0) ∧
    ((List.range 3).map fun i =>
        if i < engineAxisWrites 3 2 then sampleLengths i
        else [(70 : Int), 80, 90].getD i 0).length = 3 ∧
    fits_get_img_param_wrapper 4 4 sampleLengths 70 80 90 = none := by
  have t := C9_img_param_fixed_buffer 3 2 sampleLengths 70 80 90 (by decide)
  exact ⟨t.1, t.2.1, t.2.2 4 4 (by decide) (by decide)⟩

/-- Witness for C10 at a 2-axis 4-by-4 full-image read. -/
theorem C10_contiguous_full_read_equiv_witness :
    castro_read_img_request 42 [1] [prodFirst 2 [4, 4]] =
      (42, 1, prodFirst 2 [4, 4]) ∧
    linearOffset
      (ccfitsio_read_img_request 42 ((2 : Nat) : Int) (List.replicate 2 1) [4, 4]).fpixel
      [4, 4] = 1 ∧
    (ccfitsio_read_img_request 42 ((2 : Nat) : Int) (List.replicate 2 1) [4, 4]).nelem =
      prodFirst 2 [4, 4] :=
  C10_contiguous_full_read_equiv 42 2 [4, 4] (by decide) (by decide)
    (by decide) (by decide)
